import Mathlib

/-
Verification of the iss-tracker service (src/iss_tracker.py) against its
natural-language specification.

Modelling conventions:
* Python floats are modelled as exact numbers: the feed values and the
  key-value store contents are rationals (ℚ), and the transcendental
  geometry (sqrt, arcsin, atan2) is carried out in ℝ.
* The Redis store is modelled as a `Store`: an association list for the
  per-epoch hashes (keys `iss_data:{epoch}`) plus the `iss_epochs` list.
  Keys are plain strings (the spec treats the cache as an external
  collaborator over string keys).
* Every tracker method first calls `read_data()` to refresh the store from
  the feed; that refresh is modelled separately (`read_data` below), and
  each query method is modelled as a function of the store state it reads
  after the refresh.
* Fallible paths are explicit: exceptions that escape a method are
  constructors of the result type, and each Flask route maps them to the
  HTTP status the `try/except` blocks produce.
-/

namespace Iss

/-- A parsed state vector, as stored under the key `iss_data:{epoch}`
(fields `epoch, x, y, z, x_dot, y_dot, z_dot` of the Redis hash built in
`ISSTracker.read_data`). -/
structure StateVector where
  epoch : String
  x : ℚ
  y : ℚ
  z : ℚ
  x_dot : ℚ
  y_dot : ℚ
  z_dot : ℚ
  deriving DecidableEq, Repr

/-- One `<stateVector>` element of the feed document, with its seven text
fields still unparsed (`findtext` results). -/
structure RawStateVector where
  epoch : String
  x : String
  y : String
  z : String
  x_dot : String
  y_dot : String
  z_dot : String
  deriving DecidableEq, Repr

/-- The Redis state used by the tracker: the per-epoch hashes and the
`iss_epochs` list. -/
structure Store where
  data : List (String × StateVector)
  epochs : List String
  deriving DecidableEq, Repr

/-- Redis HGETALL on the hash at a key: the first binding of the key in
the association list, `none` when the key is absent (Python receives an
empty dict and `get_state_vector_epoch` returns `None`). -/
def hgetall : List (String × StateVector) → String → Option StateVector
  | [], _ => none
  | (k, v) :: t, e => if k = e then some v else hgetall t e

/-- Redis HSET with a full mapping: overwrite the hash at the key if it
exists, otherwise append a new binding. -/
def hset : List (String × StateVector) → String → StateVector → List (String × StateVector)
  | [], k, v => [(k, v)]
  | (k', v') :: t, k, v => if k' = k then (k, v) :: t else (k', v') :: hset t k v

/-- Value of a decimal digit character. -/
def digitVal (c : Char) : Option ℕ :=
  if c.isDigit then some (c.toNat - '0'.toNat) else none

/-- Value of a non-empty all-digit character sequence, `none` otherwise. -/
def parseDigits (cs : List Char) : Option ℕ :=
  if cs.isEmpty then none
  else
    cs.foldl
      (fun acc c =>
        match acc, digitVal c with
        | some a, some d => some (10 * a + d)
        | _, _ => none)
      (some 0)

/-- Models CPython `int(s)` on an optionally signed decimal string:
`some` of its value, `none` when `int` raises `ValueError`.  (Whitespace
trimming and underscore separators, which no claim exercises, are not
modelled.) -/
def pyInt (s : String) : Option ℤ :=
  match s.data with
  | '-' :: t => (parseDigits t).map (fun n => -(n : ℤ))
  | '+' :: t => (parseDigits t).map (fun n => (n : ℤ))
  | cs => (parseDigits cs).map (fun n => (n : ℤ))

/-- Models CPython `float(s)` on an optionally signed plain decimal
literal (digits with an optional fractional part): `some` of its exact
value, `none` when `float` raises `ValueError`.  (Exponent notation,
inf/nan and whitespace, which no claim exercises, are not modelled.) -/
def pyFloat (s : String) : Option ℚ :=
  let signed : Bool × List Char :=
    match s.data with
    | '-' :: t => (true, t)
    | '+' :: t => (false, t)
    | cs => (false, cs)
  let applySign : ℚ → ℚ := fun v => if signed.1 then -v else v
  match signed.2.splitOn '.' with
  | [ip] => (parseDigits ip).map (fun n => applySign (n : ℚ))
  | [ip, fp] =>
    if fp.isEmpty then (parseDigits ip).map (fun n => applySign (n : ℚ))
    else if ip.isEmpty then
      (parseDigits fp).map (fun n => applySign ((n : ℚ) / 10 ^ fp.length))
    else
      match parseDigits ip, parseDigits fp with
      | some a, some b => some (applySign ((a : ℚ) + (b : ℚ) / 10 ^ fp.length))
      | _, _ => none
  | _ => none

/-- Decides whether the pattern occurs at the head of the haystack. -/
def leadsWith : List Char → List Char → Bool
  | _, [] => true
  | [], _ :: _ => false
  | a :: as, b :: bs => a == b && leadsWith as bs

/-- Decides whether the pattern occurs somewhere in the haystack. -/
def hasSub : List Char → List Char → Bool
  | [], p => p.isEmpty
  | h :: t, p => leadsWith (h :: t) p || hasSub t p

/-- String containment ("the error message contains ..."). -/
def strContains (hay pat : String) : Bool :=
  hasSub hay.data pat.data

/-- Conversion of one raw feed record by `read_data`: all six numeric text
fields go through `float(...)`; the first `ValueError` aborts the record
(and, in the caller, the whole load). -/
def parseRaw (pf : String → Option ℚ) (r : RawStateVector) : Option StateVector :=
  match pf r.x, pf r.y, pf r.z, pf r.x_dot, pf r.y_dot, pf r.z_dot with
  | some x, some y, some z, some xd, some yd, some zd =>
    some ⟨r.epoch, x, y, z, xd, yd, zd⟩
  | _, _, _, _, _, _ => none

/-- Effect of one loop iteration of `read_data` on the store: HSET of the
full mapping under `iss_data:{epoch}`, then RPUSH of the epoch onto
`iss_epochs`. -/
def store_record (s : Store) (key : String) (sv : StateVector) : Store :=
  ⟨hset s.data key sv, s.epochs ++ [key]⟩

/-- ISSTracker.read_data, iterating over the `.//stateVector` elements of
the (already fetched and XML-parsed) feed in document order.  `pf` models
Python `float`.  A record with a malformed numeric field raises
`ValueError`: the result is `.error` carrying the store state at that
moment — the records preceding it have already been written, the rest of
the feed is not processed. -/
def read_data (pf : String → Option ℚ) : List RawStateVector → Store → Except Store Store
  | [], s => .ok s
  | r :: rest, s =>
    match parseRaw pf r with
    | some sv => read_data pf rest (store_record s r.epoch sv)
    | none => .error s

instance : DecidableEq (Except Store Store) := fun a b =>
  match a, b with
  | .ok a, .ok b => decidable_of_iff (a = b) (by simp)
  | .error a, .error b => decidable_of_iff (a = b) (by simp)
  | .ok _, .error _ => isFalse (by simp)
  | .error _, .ok _ => isFalse (by simp)

/-- Store contents after loading the well-formed records of a feed
fragment (records that fail to parse contribute nothing). -/
def load_all (pf : String → Option ℚ) (rs : List RawStateVector) (s : Store) : Store :=
  rs.foldl
    (fun st r =>
      match parseRaw pf r with
      | some sv => store_record st r.epoch sv
      | none => st)
    s

/-- ISSTracker.epochs: LRANGE iss_epochs 0 -1 (after the refresh). -/
def epochs (s : Store) : List String :=
  s.epochs

/-- ISSTracker.epochs_limited: Python `epochs[offset:][:limit]` for the
non-negative integers the HTTP layer has validated. -/
def epochs_limited (limit offset : ℕ) (s : Store) : List String :=
  ((epochs s).drop offset).take limit

/-- ISSTracker.get_state_vector_epoch: HGETALL on `iss_data:{epoch}`;
`None` on an empty result, otherwise the stored record (the float
round-trip through the hash is the identity in this exact model). -/
def get_state_vector_epoch (s : Store) (epoch : String) : Option StateVector :=
  hgetall s.data epoch

/-- The inner `calculate_speed`: Euclidean norm of the velocity triple. -/
noncomputable def calculate_speed (xd yd zd : ℚ) : ℝ :=
  Real.sqrt ((xd : ℝ) ^ 2 + (yd : ℝ) ^ 2 + (zd : ℝ) ^ 2)

/-- ISSTracker.get_speed_epoch: `{'epoch': epoch, 'speed': ...}` when the
state vector exists, `None` otherwise. -/
noncomputable def get_speed_epoch (s : Store) (epoch : String) : Option (String × ℝ) :=
  match get_state_vector_epoch s epoch with
  | some sv => some (epoch, calculate_speed sv.x_dot sv.y_dot sv.z_dot)
  | none => none

/-- Python math.degrees. -/
noncomputable def degrees (t : ℝ) : ℝ :=
  t * (180 / Real.pi)

/-- Python math.atan2 y x: the argument of the complex number x + y·i,
in (−π, π]. -/
noncomputable def atan2 (y x : ℝ) : ℝ :=
  Complex.arg ⟨x, y⟩

/-- Geodetic coordinates derived in `get_location_epoch`. -/
@[ext]
structure GeoCoords where
  lat : ℝ
  lon : ℝ
  alt : ℝ

/-- The Cartesian-to-geodetic conversion of `get_location_epoch`
(lines computing r, longitude, latitude, altitude): `none` models the
`ZeroDivisionError` that `z / r` raises when `r = 0`. -/
noncomputable def geodetic (x y z : ℝ) : Option GeoCoords :=
  let r := Real.sqrt (x ^ 2 + y ^ 2 + z ^ 2)
  if r = 0 then none
  else some ⟨degrees (Real.arcsin (z / r)), degrees (atan2 y x), r - 6371.0⟩

/-- Outcome of the reverse-geocoding collaborator at a coordinate pair:
an address, a `None` result (no match), or a raised exception. -/
inductive GeoResult where
  | found (address : String)
  | noMatch
  | failure
  deriving DecidableEq

/-- The `geoposition` string computed by `get_location_epoch`: the address
when geocoding succeeds, and the two fixed placeholder strings of the
source for the no-match and exception cases. -/
def geoposition_of (g : ℝ → ℝ → GeoResult) (latitude longitude : ℝ) : String :=
  match g latitude longitude with
  | .found address => address
  | .noMatch => "Over water or uninhabited area"
  | .failure => "Location data unavalible"

/-- The dict returned by `get_location_epoch` on success. -/
structure LocationRecord where
  epoch : String
  latitude : ℝ
  longitude : ℝ
  altitude : ℝ
  geoposition : String

/-- Result of `get_location_epoch`: `None` (unknown epoch), a
`ZeroDivisionError` escaping the method (zero position vector), or the
location dict. -/
inductive LocResult where
  | notFound
  | divisionByZero
  | ok (loc : LocationRecord)

/-- ISSTracker.get_location_epoch: look up the state vector, convert the
position to geodetic coordinates (raising on a zero radius), then call the
geocoder `g`, whose failure or no-match is absorbed into a placeholder
`geoposition`. -/
noncomputable def get_location_epoch (g : ℝ → ℝ → GeoResult) (s : Store) (epoch : String) :
    LocResult :=
  match get_state_vector_epoch s epoch with
  | none => .notFound
  | some sv =>
    match geodetic (sv.x : ℝ) (sv.y : ℝ) (sv.z : ℝ) with
    | none => .divisionByZero
    | some gc =>
      .ok ⟨epoch, gc.lat, gc.lon, gc.alt, geoposition_of g gc.lat gc.lon⟩

/-- ISSTracker.print_closest_epoch: `None` when the refreshed index is
empty; otherwise build the list of |parse(epoch) − now| differences,
take `min(...)`, locate its first index with `list.index`, and return the
HGETALL result for the epoch at that index.  `parse` models
`datetime.strptime(epoch, "%Y-%jT%H:%M:%S.%fZ")` as a timestamp in ℤ and
`now` models `datetime.now()`. -/
def print_closest_epoch (parse : String → ℤ) (now : ℤ) (s : Store) : Option StateVector :=
  if s.epochs.isEmpty then none
  else
    let timediffdata := s.epochs.map (fun epoch => (parse epoch - now).natAbs)
    let smallest_diff := timediffdata.min?.getD 0
    let closest_epoch := s.epochs.getD (timediffdata.findIdx (· == smallest_diff)) ""
    get_state_vector_epoch s closest_epoch

/-- The dict returned by `get_now` on success. -/
structure NowRecord where
  epoch : String
  speed : ℝ
  latitude : ℝ
  longitude : ℝ
  altitude : ℝ
  geoposition : String

/-- Result of `get_now`: `None` (no closest record), an exception escaping
the method (the `[...]` subscript on a `None` lookup result, or the
`ZeroDivisionError` from a zero position), or the composed dict. -/
inductive NowResult where
  | noData
  | raised
  | ok (r : NowRecord)

/-- ISSTracker.get_now: take the closest record, then compose
`get_speed_epoch(epoch)['speed']` and the fields of
`get_location_epoch(epoch)` for that same epoch.  A `None` from either
sub-lookup would make the subscript raise `TypeError`, and a zero position
raises `ZeroDivisionError`; both escape the method (`raised`). -/
noncomputable def get_now (g : ℝ → ℝ → GeoResult) (parse : String → ℤ) (now : ℤ)
    (s : Store) : NowResult :=
  match print_closest_epoch parse now s with
  | none => .noData
  | some closest =>
    match get_speed_epoch s closest.epoch with
    | none => .raised
    | some sp =>
      match get_location_epoch g s closest.epoch with
      | .notFound => .raised
      | .divisionByZero => .raised
      | .ok loc =>
        .ok ⟨closest.epoch, sp.2, loc.latitude, loc.longitude, loc.altitude, loc.geoposition⟩

/-- Route GET /epochs (`epoch_limit_data`): result status and body, the
body being either an error message or the epoch list.  Validation runs
only when both query parameters are present; `pyInt` models the two
`int(...)` conversions whose `ValueError` is caught. -/
def epoch_limit_data (lim off : Option String) (s : Store) : ℕ × (String ⊕ List String) :=
  match lim, off with
  | some ls, some os =>
    (match pyInt ls, pyInt os with
     | some l, some o =>
       if l < 0 ∨ o < 0 then (400, .inl "Limit and offset must be non-negative integers")
       else (200, .inr (epochs_limited l.toNat o.toNat s))
     | _, _ => (400, .inl "Limit and offset must be integers"))
  | _, _ => (200, .inr (epochs s))

/-- Route GET /epochs/{epoch} (`epoch_data`): 404 on an unknown epoch,
200 with the state vector otherwise. -/
def epoch_data (s : Store) (epoch : String) : ℕ × (String ⊕ StateVector) :=
  match get_state_vector_epoch s epoch with
  | none => (404, .inl ("Epoch not found: " ++ epoch))
  | some sv => (200, .inr sv)

/-- Route GET /epochs/{epoch}/speed (`epoch_speed`): 404 on an unknown
epoch, 200 with `{epoch, speed}` otherwise. -/
noncomputable def epoch_speed (s : Store) (epoch : String) : ℕ × (String ⊕ (String × ℝ)) :=
  match get_speed_epoch s epoch with
  | none => (404, .inl ("Epoch not found: " ++ epoch))
  | some d => (200, .inr d)

/-- Route GET /epochs/{epoch}/location (`epoch_location`): 404 on an
unknown epoch, 500 when the method raises (caught by the route's
`except`), 200 with the location otherwise. -/
noncomputable def epoch_location (g : ℝ → ℝ → GeoResult) (s : Store) (epoch : String) :
    ℕ × (String ⊕ LocationRecord) :=
  match get_location_epoch g s epoch with
  | .notFound => (404, .inl ("Epoch not found: " ++ epoch))
  | .divisionByZero => (500, .inl "float division by zero")
  | .ok loc => (200, .inr loc)

/-- Route GET /now (`now_data`): 500 when `get_now` returns `None` or
raises, 200 with the composed dict otherwise. -/
noncomputable def now_data (g : ℝ → ℝ → GeoResult) (parse : String → ℤ) (now : ℤ)
    (s : Store) : ℕ × (String ⊕ NowRecord) :=
  match get_now g parse now s with
  | .noData => (500, .inl "Could not determine current ISS data")
  | .raised => (500, .inl "internal error")
  | .ok r => (200, .inr r)

/-! ### Helper lemmas -/

theorem geodetic_zero_eq_none (x y z : ℝ) (h : x ^ 2 + y ^ 2 + z ^ 2 = 0) :
    geodetic x y z = none := by
  unfold geodetic
  rw [h, Real.sqrt_zero]
  simp

theorem geodetic_pos_eq_some (x y z : ℝ) (h : x ^ 2 + y ^ 2 + z ^ 2 ≠ 0) :
    geodetic x y z =
      some ⟨degrees (Real.arcsin (z / Real.sqrt (x ^ 2 + y ^ 2 + z ^ 2))),
        degrees (atan2 y x), Real.sqrt (x ^ 2 + y ^ 2 + z ^ 2) - 6371.0⟩ := by
  have hpos : 0 < x ^ 2 + y ^ 2 + z ^ 2 := lt_of_le_of_ne (by positivity) (Ne.symm h)
  have hs : Real.sqrt (x ^ 2 + y ^ 2 + z ^ 2) ≠ 0 := ne_of_gt (Real.sqrt_pos.mpr hpos)
  unfold geodetic
  rw [if_neg hs]

theorem degrees_mono {a b : ℝ} (h : a ≤ b) : degrees a ≤ degrees b := by
  unfold degrees
  have : (0 : ℝ) ≤ 180 / Real.pi := le_of_lt (div_pos (by norm_num) Real.pi_pos)
  exact mul_le_mul_of_nonneg_right h this

theorem degrees_strict_mono {a b : ℝ} (h : a < b) : degrees a < degrees b := by
  unfold degrees
  exact mul_lt_mul_of_pos_right h (div_pos (by norm_num) Real.pi_pos)

theorem degrees_zero : degrees 0 = 0 := by
  unfold degrees
  ring

theorem degrees_neg (t : ℝ) : degrees (-t) = -degrees t := by
  unfold degrees
  ring

theorem degrees_pi : degrees Real.pi = 180 := by
  unfold degrees
  rw [mul_comm, div_mul_cancel₀ _ Real.pi_ne_zero]

theorem degrees_neg_pi : degrees (-Real.pi) = -180 := by
  rw [degrees_neg, degrees_pi]

theorem degrees_pi_div_two : degrees (Real.pi / 2) = 90 := by
  unfold degrees
  rw [div_mul_div_comm, div_eq_iff (by positivity : (0 : ℝ) < 2 * Real.pi).ne']
  ring

theorem degrees_neg_pi_div_two : degrees (-(Real.pi / 2)) = -90 := by
  rw [degrees_neg, degrees_pi_div_two]

theorem min_of_nonempty (ds : List ℕ) (h : ds ≠ []) :
    ∃ m, ds.min? = some m ∧ m ∈ ds ∧ ∀ b ∈ ds, m ≤ b := by
  obtain ⟨m, hm⟩ : ∃ m, ds.min? = some m := by
    cases h2 : ds.min? with
    | none => exact absurd (List.min?_eq_none_iff.mp h2) h
    | some m => exact ⟨m, rfl⟩
  have hmm := (List.min?_eq_some_iff (fun a => le_refl a) (fun a b => min_choice a b)
    (fun a b c => le_min_iff)).mp hm
  exact ⟨m, hm, hmm.1, hmm.2⟩

/-! ### Claim theorems -/

/-- C10: a GET /epochs request that supplies exactly one of the limit and
offset query parameters ignores it regardless of its value — even if
non-integer or negative — and returns the full epoch list with
status 200. -/
theorem c10_single_param_ignored (v : String) (s : Store) :
    epoch_limit_data (some v) none s = (200, .inr (epochs s)) ∧
    epoch_limit_data none (some v) s = (200, .inr (epochs s)) :=
  ⟨rfl, rfl⟩

/-- C6: for every epoch index and all non-negative integers limit and
offset, `epochs_limited` returns the slice of the index starting at
position offset with at most limit items, in index order; an offset at or
beyond the index length yields the empty sequence. -/
theorem c6_list_range (s : Store) (limit offset : ℕ) :
    (epochs_limited limit offset s).length ≤ limit ∧
    (∀ i : Fin (epochs_limited limit offset s).length,
      ∃ j : Fin s.epochs.length, (j : ℕ) = offset + (i : ℕ) ∧
        (epochs_limited limit offset s).get i = s.epochs.get j) ∧
    (s.epochs.length ≤ offset → epochs_limited limit offset s = []) := by
  have hlen : (epochs_limited limit offset s).length = min limit (s.epochs.length - offset) := by
    simp [epochs_limited, epochs]
  refine ⟨?_, ?_, ?_⟩
  · rw [hlen]
    exact min_le_left _ _
  · rintro ⟨i, hi⟩
    have hoi : offset + i < s.epochs.length := by
      rw [hlen] at hi
      omega
    refine ⟨⟨offset + i, hoi⟩, rfl, ?_⟩
    simp [epochs_limited, epochs, List.get_eq_getElem, List.getElem_take, List.getElem_drop]
  · intro h
    simp [epochs_limited, epochs, List.drop_eq_nil_of_le h]

/-- Witness for C6 at the spec's own example: over index `[e0, e1]`,
`limit = 1, offset = 1` yields `[e1]`, and an offset past the end yields
`[]`. -/
theorem c6_list_range_witness :
    epochs_limited 1 1 ⟨[], ["e0", "e1"]⟩ = ["e1"] ∧
    (⟨[], ["e0", "e1"]⟩ : Store).epochs.length ≤ 5 ∧
    epochs_limited 1 5 ⟨[], ["e0", "e1"]⟩ = [] :=
  ⟨by decide, by decide, (c6_list_range ⟨[], ["e0", "e1"]⟩ 1 5).2.2 (by decide)⟩

/-- C4: for every epoch string not present in the store, the lookups
`get_state_vector_epoch`, `get_speed_epoch` and `get_location_epoch` all
return a not-found result (no exception constructor is produced), and the
HTTP layer surfaces each as status 404. -/
theorem c4_unknown_epoch_not_found (s : Store) (g : ℝ → ℝ → GeoResult) (epoch : String)
    (h : hgetall s.data epoch = none) :
    get_state_vector_epoch s epoch = none ∧
    get_speed_epoch s epoch = none ∧
    get_location_epoch g s epoch = .notFound ∧
    (epoch_data s epoch).1 = 404 ∧
    (epoch_speed s epoch).1 = 404 ∧
    (epoch_location g s epoch).1 = 404 := by
  have h1 : get_state_vector_epoch s epoch = none := h
  refine ⟨h1, ?_, ?_, ?_, ?_, ?_⟩ <;>
    simp [get_speed_epoch, get_location_epoch, epoch_data, epoch_speed, epoch_location, h1]

/-- Witness for C4 at the empty store and epoch "x". -/
theorem c4_unknown_epoch_not_found_witness :
    hgetall (Store.mk [] []).data "x" = none ∧
    (get_state_vector_epoch ⟨[], []⟩ "x" = none ∧
     get_speed_epoch ⟨[], []⟩ "x" = none ∧
     get_location_epoch (fun _ _ => .failure) ⟨[], []⟩ "x" = .notFound ∧
     (epoch_data ⟨[], []⟩ "x").1 = 404 ∧
     (epoch_speed ⟨[], []⟩ "x").1 = 404 ∧
     (epoch_location (fun _ _ => .failure) ⟨[], []⟩ "x").1 = 404) :=
  ⟨rfl, c4_unknown_epoch_not_found ⟨[], []⟩ (fun _ _ => .failure) "x" rfl⟩

/-- C9: for every epoch present in the store, `get_speed_epoch` returns
`{epoch, speed}` with speed the Euclidean norm of the stored velocity;
the norm of the zero velocity is 0, and velocity (3, 4, 5) gives speed
`sqrt 50`, within 10⁻⁶ of 7.071068. -/
theorem c9_speed_at :
    (∀ (s : Store) (epoch : String) (sv : StateVector),
      hgetall s.data epoch = some sv →
      get_speed_epoch s epoch =
        some (epoch,
          Real.sqrt ((sv.x_dot : ℝ) ^ 2 + (sv.y_dot : ℝ) ^ 2 + (sv.z_dot : ℝ) ^ 2))) ∧
    calculate_speed 0 0 0 = 0 ∧
    calculate_speed 3 4 5 = Real.sqrt 50 ∧
    |calculate_speed 3 4 5 - 7.071068| < 1 / 1000000 := by
  have h345 : calculate_speed 3 4 5 = Real.sqrt 50 := by
    unfold calculate_speed
    norm_num
  refine ⟨?_, ?_, h345, ?_⟩
  · intro s epoch sv h
    simp [get_speed_epoch, get_state_vector_epoch, h, calculate_speed]
  · unfold calculate_speed
    norm_num
  · have hub : Real.sqrt 50 < 7.071068 := by
      rw [Real.sqrt_lt' (by norm_num : (0 : ℝ) < 7.071068)]
      norm_num
    have hlb : (7.071067 : ℝ) < Real.sqrt 50 := by
      rw [Real.lt_sqrt (by norm_num : (0 : ℝ) ≤ 7.071067)]
      norm_num
    rw [h345, abs_sub_lt_iff]
    constructor <;> nlinarith

/-- Witness for C9 at a one-record store with velocity (3, 4, 5). -/
theorem c9_speed_at_witness :
    hgetall [("a", (⟨"a", 1, 2, 3, 3, 4, 5⟩ : StateVector))] "a" = some ⟨"a", 1, 2, 3, 3, 4, 5⟩ ∧
    get_speed_epoch ⟨[("a", ⟨"a", 1, 2, 3, 3, 4, 5⟩)], ["a"]⟩ "a" =
      some ("a", Real.sqrt (((3 : ℚ) : ℝ) ^ 2 + ((4 : ℚ) : ℝ) ^ 2 + ((5 : ℚ) : ℝ) ^ 2)) :=
  ⟨rfl, c9_speed_at.1 ⟨[("a", ⟨"a", 1, 2, 3, 3, 4, 5⟩)], ["a"]⟩ "a" ⟨"a", 1, 2, 3, 3, 4, 5⟩ rfl⟩

/-- C1 counterexample: a request carrying only `limit = "-1"` (offset
absent) answers 200 with the full epoch list, not 400 — validation runs
only when both parameters are present. -/
theorem c1_counterexample :
    epoch_limit_data (some "-1") none ⟨[], ["e0"]⟩ = (200, .inr ["e0"]) ∧
    (epoch_limit_data (some "-1") none ⟨[], ["e0"]⟩).1 ≠ 400 :=
  ⟨rfl, by decide⟩

/-- C1 (amended): for every GET /epochs request in which both limit and
offset are present, if either fails integer conversion the status is 400
with a message containing "integers", and if both convert but either is
negative the status is 400 with a message containing "non-negative". -/
theorem c1_pagination_validation (ls os : String) (s : Store) :
    ((pyInt ls = none ∨ pyInt os = none) →
      ∃ msg, epoch_limit_data (some ls) (some os) s = (400, .inl msg) ∧
        strContains msg "integers" = true) ∧
    (∀ l o : ℤ, pyInt ls = some l → pyInt os = some o → (l < 0 ∨ o < 0) →
      ∃ msg, epoch_limit_data (some ls) (some os) s = (400, .inl msg) ∧
        strContains msg "non-negative" = true) := by
  constructor
  · intro h
    refine ⟨"Limit and offset must be integers", ?_, by decide⟩
    rcases hls : pyInt ls with _ | l
    · simp [epoch_limit_data, hls]
    · rcases hos : pyInt os with _ | o
      · simp [epoch_limit_data, hls, hos]
      · exfalso
        rcases h with h | h
        · rw [hls] at h
          exact Option.noConfusion h
        · rw [hos] at h
          exact Option.noConfusion h
  · intro l o hl ho hneg
    refine ⟨"Limit and offset must be non-negative integers", ?_, by decide⟩
    simp only [epoch_limit_data, hl, ho]
    rw [if_pos hneg]

/-- Witness for C1 (amended): `limit="abc"&offset="0"` trips the
"integers" branch and `limit="-1"&offset="0"` the "non-negative" branch. -/
theorem c1_pagination_validation_witness :
    (pyInt "abc" = none ∨ pyInt "0" = none) ∧
    (∃ msg, epoch_limit_data (some "abc") (some "0") ⟨[], []⟩ = (400, .inl msg) ∧
      strContains msg "integers" = true) ∧
    pyInt "-1" = some (-1) ∧ pyInt "0" = some 0 ∧ ((-1 : ℤ) < 0 ∨ (0 : ℤ) < 0) ∧
    (∃ msg, epoch_limit_data (some "-1") (some "0") ⟨[], []⟩ = (400, .inl msg) ∧
      strContains msg "non-negative" = true) :=
  ⟨Or.inl (by decide),
   (c1_pagination_validation "abc" "0" ⟨[], []⟩).1 (Or.inl (by decide)),
   by decide, by decide, Or.inl (by decide),
   (c1_pagination_validation "-1" "0" ⟨[], []⟩).2 (-1) 0 (by decide) (by decide)
     (Or.inl (by decide))⟩

/-- C2 counterexample: loading a two-record feed whose second record has a
non-numeric field fails, but the first record and its epoch have already
been stored — the store is not unchanged on error. -/
theorem c2_counterexample :
    read_data pyFloat
      [⟨"E1", "1", "2", "3", "4", "5", "6"⟩, ⟨"E2", "7", "8", "9", "x", "11", "12"⟩]
      ⟨[], []⟩
      = .error ⟨[("E1", ⟨"E1", 1, 2, 3, 4, 5, 6⟩)], ["E1"]⟩ ∧
    (⟨[("E1", ⟨"E1", 1, 2, 3, 4, 5, 6⟩)], ["E1"]⟩ : Store) ≠ ⟨[], []⟩ :=
  ⟨by decide, by decide⟩

/-- C2 (amended): a malformed numeric field fails the whole load — the
invocation returns an error and processes no record at or after the
malformed one — but the attempt is not all-or-nothing: the records
preceding it in document order are stored and their epochs appended, and
the error leaves the store holding exactly that prefix. -/
theorem c2_load_error_keeps_prefix (pf : String → Option ℚ) (pre : List RawStateVector)
    (r : RawStateVector) (rest : List RawStateVector) (s : Store)
    (hpre : ∀ q ∈ pre, (parseRaw pf q).isSome)
    (hr : parseRaw pf r = none) :
    read_data pf (pre ++ r :: rest) s = .error (load_all pf pre s) ∧
    (load_all pf pre s).epochs = s.epochs ++ pre.map (fun q => q.epoch) := by
  revert hpre
  induction pre generalizing s with
  | nil =>
    intro _
    constructor
    · simp [read_data, hr, load_all]
    · simp [load_all]
  | cons q t ih =>
    intro hpre
    rcases hsv : parseRaw pf q with _ | sv
    · have hq := hpre q (by simp)
      rw [hsv] at hq
      simp at hq
    · have h2 := ih (store_record s q.epoch sv) (fun x hx => hpre x (by simp [hx]))
      have hstep : read_data pf ((q :: t) ++ r :: rest) s
          = read_data pf (t ++ r :: rest) (store_record s q.epoch sv) := by
        simp [read_data, hsv]
      have hload : load_all pf (q :: t) s = load_all pf t (store_record s q.epoch sv) := by
        simp [load_all, hsv]
      constructor
      · rw [hstep, h2.1, hload]
      · rw [hload, h2.2]
        simp [store_record]

/-- Witness for C2 (amended): feed = [good record E1, record E2 with a
non-numeric X_DOT], starting from the empty store. -/
theorem c2_load_error_keeps_prefix_witness :
    (∀ q ∈ [(⟨"E1", "1", "2", "3", "4", "5", "6"⟩ : RawStateVector)],
      (parseRaw pyFloat q).isSome) ∧
    parseRaw pyFloat ⟨"E2", "7", "8", "9", "x", "11", "12"⟩ = none ∧
    (read_data pyFloat
        ([⟨"E1", "1", "2", "3", "4", "5", "6"⟩] ++
          (⟨"E2", "7", "8", "9", "x", "11", "12"⟩ : RawStateVector) :: [])
        ⟨[], []⟩
      = .error (load_all pyFloat [⟨"E1", "1", "2", "3", "4", "5", "6"⟩] ⟨[], []⟩) ∧
     (load_all pyFloat [⟨"E1", "1", "2", "3", "4", "5", "6"⟩] ⟨[], []⟩).epochs
        = [] ++ ["E1"]) :=
  ⟨by decide, by decide,
   c2_load_error_keeps_prefix pyFloat [⟨"E1", "1", "2", "3", "4", "5", "6"⟩]
     ⟨"E2", "7", "8", "9", "x", "11", "12"⟩ [] ⟨[], []⟩ (by decide) (by decide)⟩

/-- C7 counterexample: for an epoch that is present but whose stored
position is the zero vector, `get_location_epoch` does not succeed with a
placeholder — the `z / r` division raises, whatever the geocoder does. -/
theorem c7_counterexample :
    (hgetall [("Z", (⟨"Z", 0, 0, 0, 1, 1, 1⟩ : StateVector))] "Z").isSome = true ∧
    get_location_epoch (fun _ _ => .failure) ⟨[("Z", ⟨"Z", 0, 0, 0, 1, 1, 1⟩)], ["Z"]⟩ "Z"
      = .divisionByZero ∧
    ∀ loc : LocationRecord,
      get_location_epoch (fun _ _ => .failure) ⟨[("Z", ⟨"Z", 0, 0, 0, 1, 1, 1⟩)], ["Z"]⟩ "Z"
        ≠ .ok loc := by
  have hsv : get_state_vector_epoch ⟨[("Z", ⟨"Z", 0, 0, 0, 1, 1, 1⟩)], ["Z"]⟩ "Z"
      = some ⟨"Z", 0, 0, 0, 1, 1, 1⟩ := by decide
  have hz0 : geodetic (0 : ℝ) 0 0 = none := geodetic_zero_eq_none 0 0 0 (by norm_num)
  have hloc : get_location_epoch (fun _ _ => .failure)
      ⟨[("Z", ⟨"Z", 0, 0, 0, 1, 1, 1⟩)], ["Z"]⟩ "Z" = .divisionByZero := by
    simp [get_location_epoch, hsv, hz0]
  refine ⟨by decide, hloc, ?_⟩
  intro loc h
  rw [hloc] at h
  exact LocResult.noConfusion h

/-- C7 (amended): for every epoch present in the store whose position has
nonzero norm, `get_location_epoch` succeeds for every geocoder behaviour,
and when the geocoder raises or finds no match the `geoposition` field is
the corresponding fixed placeholder string. -/
theorem c7_geocoding_best_effort (s : Store) (epoch : String) (sv : StateVector)
    (g : ℝ → ℝ → GeoResult)
    (h : hgetall s.data epoch = some sv)
    (hnz : (sv.x : ℝ) ^ 2 + (sv.y : ℝ) ^ 2 + (sv.z : ℝ) ^ 2 ≠ 0) :
    ∃ loc : LocationRecord, get_location_epoch g s epoch = .ok loc ∧
      ((∀ la lo, g la lo = .failure) → loc.geoposition = "Location data unavalible") ∧
      ((∀ la lo, g la lo = .noMatch) → loc.geoposition = "Over water or uninhabited area") := by
  have hgeo := geodetic_pos_eq_some (sv.x : ℝ) (sv.y : ℝ) (sv.z : ℝ) hnz
  refine ⟨⟨epoch,
      degrees (Real.arcsin ((sv.z : ℝ) /
        Real.sqrt ((sv.x : ℝ) ^ 2 + (sv.y : ℝ) ^ 2 + (sv.z : ℝ) ^ 2))),
      degrees (atan2 (sv.y : ℝ) (sv.x : ℝ)),
      Real.sqrt ((sv.x : ℝ) ^ 2 + (sv.y : ℝ) ^ 2 + (sv.z : ℝ) ^ 2) - 6371.0,
      geoposition_of g
        (degrees (Real.arcsin ((sv.z : ℝ) /
          Real.sqrt ((sv.x : ℝ) ^ 2 + (sv.y : ℝ) ^ 2 + (sv.z : ℝ) ^ 2))))
        (degrees (atan2 (sv.y : ℝ) (sv.x : ℝ)))⟩, ?_, ?_, ?_⟩
  · simp [get_location_epoch, get_state_vector_epoch, h, hgeo]
  · intro hg
    simp [geoposition_of, hg]
  · intro hg
    simp [geoposition_of, hg]

/-- Witness for C7 (amended) at a one-record store with position
(6371, 0, 0) and an always-raising geocoder. -/
theorem c7_geocoding_best_effort_witness :
    hgetall [("a", (⟨"a", 6371, 0, 0, 1, 1, 1⟩ : StateVector))] "a"
      = some ⟨"a", 6371, 0, 0, 1, 1, 1⟩ ∧
    (((6371 : ℚ) : ℝ) ^ 2 + ((0 : ℚ) : ℝ) ^ 2 + ((0 : ℚ) : ℝ) ^ 2 ≠ 0) ∧
    (∃ loc : LocationRecord,
      get_location_epoch (fun _ _ => .failure)
        ⟨[("a", ⟨"a", 6371, 0, 0, 1, 1, 1⟩)], ["a"]⟩ "a" = .ok loc ∧
      ((∀ la lo : ℝ, (fun _ _ => GeoResult.failure) la lo = GeoResult.failure) →
        loc.geoposition = "Location data unavalible") ∧
      ((∀ la lo : ℝ, (fun _ _ => GeoResult.failure) la lo = GeoResult.noMatch) →
        loc.geoposition = "Over water or uninhabited area")) :=
  ⟨rfl, by norm_num,
   c7_geocoding_best_effort ⟨[("a", ⟨"a", 6371, 0, 0, 1, 1, 1⟩)], ["a"]⟩ "a"
     ⟨"a", 6371, 0, 0, 1, 1, 1⟩ (fun _ _ => .failure) rfl (by norm_num)⟩

/-- C8: the geodetic conversion fails exactly when r = 0; otherwise it
returns lon = atan2(y,x) in degrees in (−180, 180], lat = asin(z/r) in
degrees in [−90, 90], and alt = r − 6371.0; and position (6371, 0, 0)
yields lat = 0, lon = 0, alt = 0. -/
theorem c8_geodetic_conversion :
    (∀ x y z : ℝ,
      (Real.sqrt (x ^ 2 + y ^ 2 + z ^ 2) = 0 → geodetic x y z = none) ∧
      (Real.sqrt (x ^ 2 + y ^ 2 + z ^ 2) ≠ 0 →
        ∃ gc : GeoCoords, geodetic x y z = some gc ∧
          gc.lon = degrees (atan2 y x) ∧ -180 < gc.lon ∧ gc.lon ≤ 180 ∧
          gc.lat = degrees (Real.arcsin (z / Real.sqrt (x ^ 2 + y ^ 2 + z ^ 2))) ∧
          -90 ≤ gc.lat ∧ gc.lat ≤ 90 ∧
          gc.alt = Real.sqrt (x ^ 2 + y ^ 2 + z ^ 2) - 6371.0)) ∧
    geodetic 6371 0 0 = some ⟨0, 0, 0⟩ := by
  have hr6371 : Real.sqrt ((6371 : ℝ) ^ 2 + 0 ^ 2 + 0 ^ 2) = 6371 := by
    rw [show (6371 : ℝ) ^ 2 + 0 ^ 2 + 0 ^ 2 = 6371 ^ 2 by norm_num,
      Real.sqrt_sq (by norm_num : (0 : ℝ) ≤ 6371)]
  constructor
  · intro x y z
    constructor
    · intro h0
      have hsum : x ^ 2 + y ^ 2 + z ^ 2 = 0 :=
        le_antisymm (Real.sqrt_eq_zero'.mp h0) (by positivity)
      exact geodetic_zero_eq_none x y z hsum
    · intro hne
      have hsum : x ^ 2 + y ^ 2 + z ^ 2 ≠ 0 := by
        intro hc
        exact hne (by rw [hc, Real.sqrt_zero])
      refine ⟨_, geodetic_pos_eq_some x y z hsum, rfl, ?_, ?_, rfl, ?_, ?_, rfl⟩
      · have h := degrees_strict_mono (Complex.neg_pi_lt_arg ⟨x, y⟩)
        rw [degrees_neg_pi] at h
        exact h
      · have h := degrees_mono (Complex.arg_le_pi ⟨x, y⟩)
        rw [degrees_pi] at h
        exact h
      · have h := degrees_mono
          (Real.arcsin_mem_Icc (z / Real.sqrt (x ^ 2 + y ^ 2 + z ^ 2))).1
        rw [degrees_neg_pi_div_two] at h
        exact h
      · have h := degrees_mono
          (Real.arcsin_mem_Icc (z / Real.sqrt (x ^ 2 + y ^ 2 + z ^ 2))).2
        rw [degrees_pi_div_two] at h
        exact h
  · rw [geodetic_pos_eq_some 6371 0 0 (by norm_num)]
    refine congrArg some ?_
    ext
    · rw [hr6371, zero_div, Real.arcsin_zero, degrees_zero]
    · have harg : atan2 (0 : ℝ) 6371 = 0 := by
        unfold atan2
        rw [Complex.arg_eq_zero_iff]
        exact ⟨by norm_num, rfl⟩
      rw [harg, degrees_zero]
    · rw [hr6371]
      norm_num

/-- Witness for C8 at the spec's round-trip point (6371, 0, 0). -/
theorem c8_geodetic_conversion_witness :
    Real.sqrt ((6371 : ℝ) ^ 2 + 0 ^ 2 + 0 ^ 2) ≠ 0 ∧
    (∃ gc : GeoCoords, geodetic (6371 : ℝ) 0 0 = some gc ∧
      gc.lon = degrees (atan2 0 6371) ∧ -180 < gc.lon ∧ gc.lon ≤ 180 ∧
      gc.lat = degrees (Real.arcsin (0 / Real.sqrt ((6371 : ℝ) ^ 2 + 0 ^ 2 + 0 ^ 2))) ∧
      -90 ≤ gc.lat ∧ gc.lat ≤ 90 ∧
      gc.alt = Real.sqrt ((6371 : ℝ) ^ 2 + 0 ^ 2 + 0 ^ 2) - 6371.0) ∧
    geodetic (6371 : ℝ) 0 0 = some ⟨0, 0, 0⟩ :=
  ⟨by positivity,
   (c8_geodetic_conversion.1 6371 0 0).2 (by positivity),
   c8_geodetic_conversion.2⟩

/-- C3: on an empty index `print_closest_epoch` returns none; on a
non-empty index (each entry having a stored record, as every store built
by the loader does) it returns the stored state vector of the epoch
minimizing |parse(epoch) − now|, ties broken by first occurrence in index
order. -/
theorem c3_closest_to_now :
    (∀ (parse : String → ℤ) (now : ℤ) (s : Store),
      s.epochs = [] → print_closest_epoch parse now s = none) ∧
    (∀ (parse : String → ℤ) (now : ℤ) (s : Store),
      s.epochs ≠ [] →
      (∀ e ∈ s.epochs, (hgetall s.data e).isSome) →
      ∃ i : Fin s.epochs.length,
        print_closest_epoch parse now s = hgetall s.data (s.epochs.get i) ∧
        (hgetall s.data (s.epochs.get i)).isSome ∧
        (∀ j : Fin s.epochs.length,
          (parse (s.epochs.get i) - now).natAbs ≤ (parse (s.epochs.get j) - now).natAbs) ∧
        (∀ j : Fin s.epochs.length, (j : ℕ) < (i : ℕ) →
          (parse (s.epochs.get i) - now).natAbs < (parse (s.epochs.get j) - now).natAbs)) := by
  constructor
  · intro parse now s h
    simp [print_closest_epoch, h]
  · intro parse now s hne hwf
    have hempty : s.epochs.isEmpty = false := by simp [List.isEmpty_iff, hne]
    obtain ⟨m, hm, hmem, hmin⟩ :=
      min_of_nonempty (s.epochs.map (fun e => (parse e - now).natAbs))
        (by simpa using hne)
    have hidx : (s.epochs.map (fun e => (parse e - now).natAbs)).findIdx (· == m)
        < (s.epochs.map (fun e => (parse e - now).natAbs)).length :=
      List.findIdx_lt_length_of_exists ⟨m, hmem, by simp⟩
    have hil : (s.epochs.map (fun e => (parse e - now).natAbs)).findIdx (· == m)
        < s.epochs.length := by simpa using hidx
    have hdsm : (s.epochs.map (fun e => (parse e - now).natAbs))[
        (s.epochs.map (fun e => (parse e - now).natAbs)).findIdx (· == m)] = m := by
      have h := List.findIdx_getElem (w := hidx)
      simpa using h
    have hFi : (parse (s.epochs[(s.epochs.map (fun e => (parse e - now).natAbs)).findIdx
        (· == m)]) - now).natAbs = m := by
      rw [List.getElem_map] at hdsm
      exact hdsm
    refine ⟨⟨(s.epochs.map (fun e => (parse e - now).natAbs)).findIdx (· == m), hil⟩,
      ?_, ?_, ?_, ?_⟩
    · simp only [print_closest_epoch, hempty, Bool.false_eq_true, if_false, hm,
        Option.getD_some]
      simp only [get_state_vector_epoch, List.get_eq_getElem, List.getD_eq_getElem?_getD]
      rw [List.getElem?_eq_getElem hil]
      simp
    · simp only [List.get_eq_getElem]
      exact hwf _ (List.getElem_mem hil)
    · intro j
      simp only [List.get_eq_getElem]
      rw [hFi]
      exact hmin _ (by exact List.mem_map_of_mem _ (List.getElem_mem j.isLt))
    · intro j hj
      simp only [List.get_eq_getElem]
      rw [hFi]
      have hjlt : (j : ℕ) < (s.epochs.map (fun e => (parse e - now).natAbs)).findIdx (· == m) :=
        hj
      have hne2 := List.not_of_lt_findIdx hjlt
      rw [List.getElem_map] at hne2
      have hne3 : (parse s.epochs[(j : ℕ)] - now).natAbs ≠ m := by
        simpa using hne2
      have hle : m ≤ (parse s.epochs[(j : ℕ)] - now).natAbs :=
        hmin _ (List.mem_map_of_mem _ (List.getElem_mem j.isLt))
      exact lt_of_le_of_ne hle (Ne.symm hne3)

/-- Witness for C3 at a one-record store. -/
theorem c3_closest_to_now_witness :
    (⟨[("a", (⟨"a", 1, 2, 3, 4, 5, 6⟩ : StateVector))], ["a"]⟩ : Store).epochs ≠ [] ∧
    (∀ e ∈ (⟨[("a", ⟨"a", 1, 2, 3, 4, 5, 6⟩)], ["a"]⟩ : Store).epochs,
      (hgetall (⟨[("a", ⟨"a", 1, 2, 3, 4, 5, 6⟩)], ["a"]⟩ : Store).data e).isSome) ∧
    (∃ i : Fin (⟨[("a", ⟨"a", 1, 2, 3, 4, 5, 6⟩)], ["a"]⟩ : Store).epochs.length,
      print_closest_epoch (fun _ => 0) 0 ⟨[("a", ⟨"a", 1, 2, 3, 4, 5, 6⟩)], ["a"]⟩
        = hgetall (⟨[("a", ⟨"a", 1, 2, 3, 4, 5, 6⟩)], ["a"]⟩ : Store).data
            ((⟨[("a", ⟨"a", 1, 2, 3, 4, 5, 6⟩)], ["a"]⟩ : Store).epochs.get i) ∧
      (hgetall (⟨[("a", ⟨"a", 1, 2, 3, 4, 5, 6⟩)], ["a"]⟩ : Store).data
        ((⟨[("a", ⟨"a", 1, 2, 3, 4, 5, 6⟩)], ["a"]⟩ : Store).epochs.get i)).isSome ∧
      (∀ j : Fin (⟨[("a", ⟨"a", 1, 2, 3, 4, 5, 6⟩)], ["a"]⟩ : Store).epochs.length,
        ((fun _ => (0 : ℤ)) ((⟨[("a", ⟨"a", 1, 2, 3, 4, 5, 6⟩)], ["a"]⟩ : Store).epochs.get i)
            - 0).natAbs ≤
          ((fun _ => (0 : ℤ)) ((⟨[("a", ⟨"a", 1, 2, 3, 4, 5, 6⟩)], ["a"]⟩ : Store).epochs.get j)
            - 0).natAbs) ∧
      (∀ j : Fin (⟨[("a", ⟨"a", 1, 2, 3, 4, 5, 6⟩)], ["a"]⟩ : Store).epochs.length,
        (j : ℕ) < (i : ℕ) →
        ((fun _ => (0 : ℤ)) ((⟨[("a", ⟨"a", 1, 2, 3, 4, 5, 6⟩)], ["a"]⟩ : Store).epochs.get i)
            - 0).natAbs <
          ((fun _ => (0 : ℤ)) ((⟨[("a", ⟨"a", 1, 2, 3, 4, 5, 6⟩)], ["a"]⟩ : Store).epochs.get j)
            - 0).natAbs)) :=
  ⟨by decide, by decide,
   c3_closest_to_now.2 (fun _ => 0) 0 ⟨[("a", ⟨"a", 1, 2, 3, 4, 5, 6⟩)], ["a"]⟩
     (by decide) (by decide)⟩

/-- C5 counterexample: a store whose single (hence closest) record has a
zero position makes `get_now` raise (ZeroDivisionError, HTTP 500), not
return the composed record the claim promises for every non-empty
store. -/
theorem c5_counterexample :
    (⟨[("Z", (⟨"Z", 0, 0, 0, 3, 4, 5⟩ : StateVector))], ["Z"]⟩ : Store).epochs ≠ [] ∧
    get_now (fun _ _ => .failure) (fun _ => 0) 0
      ⟨[("Z", ⟨"Z", 0, 0, 0, 3, 4, 5⟩)], ["Z"]⟩ = .raised ∧
    ∀ r : NowRecord,
      get_now (fun _ _ => .failure) (fun _ => 0) 0
        ⟨[("Z", ⟨"Z", 0, 0, 0, 3, 4, 5⟩)], ["Z"]⟩ ≠ .ok r := by
  have hclosest : print_closest_epoch (fun _ => 0) 0
      ⟨[("Z", ⟨"Z", 0, 0, 0, 3, 4, 5⟩)], ["Z"]⟩ = some ⟨"Z", 0, 0, 0, 3, 4, 5⟩ := by decide
  have hsv : get_state_vector_epoch ⟨[("Z", ⟨"Z", 0, 0, 0, 3, 4, 5⟩)], ["Z"]⟩ "Z"
      = some ⟨"Z", 0, 0, 0, 3, 4, 5⟩ := by decide
  have hz0 : geodetic (0 : ℝ) 0 0 = none := geodetic_zero_eq_none 0 0 0 (by norm_num)
  have hloc : get_location_epoch (fun _ _ => .failure)
      ⟨[("Z", ⟨"Z", 0, 0, 0, 3, 4, 5⟩)], ["Z"]⟩ "Z" = .divisionByZero := by
    simp [get_location_epoch, hsv, hz0]
  have hspeed : get_speed_epoch ⟨[("Z", ⟨"Z", 0, 0, 0, 3, 4, 5⟩)], ["Z"]⟩ "Z"
      = some ("Z", calculate_speed 3 4 5) := by
    simp [get_speed_epoch, hsv]
  have hnow : get_now (fun _ _ => .failure) (fun _ => 0) 0
      ⟨[("Z", ⟨"Z", 0, 0, 0, 3, 4, 5⟩)], ["Z"]⟩ = .raised := by
    simp [get_now, hclosest, hspeed, hloc]
  refine ⟨by decide, hnow, ?_⟩
  intro r h
  rw [hnow] at h
  exact NowResult.noConfusion h

/-- C5 (amended): on an empty store `get_now` returns none and GET /now
answers 500; and whenever the closest lookup yields a record that the
store maps back to its own epoch key and whose position has nonzero norm,
`get_now` returns the record composed from that same epoch's speed and
location lookups.  (A zero-position closest record instead raises,
surfaced as 500.) -/
theorem c5_now_composition :
    (∀ (g : ℝ → ℝ → GeoResult) (parse : String → ℤ) (now : ℤ) (s : Store),
      s.epochs = [] →
      get_now g parse now s = .noData ∧ (now_data g parse now s).1 = 500) ∧
    (∀ (g : ℝ → ℝ → GeoResult) (parse : String → ℤ) (now : ℤ) (s : Store)
      (sv : StateVector),
      print_closest_epoch parse now s = some sv →
      hgetall s.data sv.epoch = some sv →
      (sv.x : ℝ) ^ 2 + (sv.y : ℝ) ^ 2 + (sv.z : ℝ) ^ 2 ≠ 0 →
      ∃ r : NowRecord, get_now g parse now s = .ok r ∧
        r.epoch = sv.epoch ∧
        get_speed_epoch s sv.epoch = some (sv.epoch, r.speed) ∧
        get_location_epoch g s sv.epoch
          = .ok ⟨sv.epoch, r.latitude, r.longitude, r.altitude, r.geoposition⟩) := by
  constructor
  · intro g parse now s h
    have hc : print_closest_epoch parse now s = none := by
      simp [print_closest_epoch, h]
    exact ⟨by simp [get_now, hc], by simp [now_data, get_now, hc]⟩
  · intro g parse now s sv hc hself hnz
    have hsv : get_state_vector_epoch s sv.epoch = some sv := hself
    have hspeed : get_speed_epoch s sv.epoch
        = some (sv.epoch, calculate_speed sv.x_dot sv.y_dot sv.z_dot) := by
      simp [get_speed_epoch, hsv]
    have hgeo := geodetic_pos_eq_some (sv.x : ℝ) (sv.y : ℝ) (sv.z : ℝ) hnz
    have hloc : get_location_epoch g s sv.epoch
        = .ok ⟨sv.epoch,
            degrees (Real.arcsin ((sv.z : ℝ) /
              Real.sqrt ((sv.x : ℝ) ^ 2 + (sv.y : ℝ) ^ 2 + (sv.z : ℝ) ^ 2))),
            degrees (atan2 (sv.y : ℝ) (sv.x : ℝ)),
            Real.sqrt ((sv.x : ℝ) ^ 2 + (sv.y : ℝ) ^ 2 + (sv.z : ℝ) ^ 2) - 6371.0,
            geoposition_of g
              (degrees (Real.arcsin ((sv.z : ℝ) /
                Real.sqrt ((sv.x : ℝ) ^ 2 + (sv.y : ℝ) ^ 2 + (sv.z : ℝ) ^ 2))))
              (degrees (atan2 (sv.y : ℝ) (sv.x : ℝ)))⟩ := by
      simp [get_location_epoch, hsv, hgeo]
    refine ⟨⟨sv.epoch, calculate_speed sv.x_dot sv.y_dot sv.z_dot,
        degrees (Real.arcsin ((sv.z : ℝ) /
          Real.sqrt ((sv.x : ℝ) ^ 2 + (sv.y : ℝ) ^ 2 + (sv.z : ℝ) ^ 2))),
        degrees (atan2 (sv.y : ℝ) (sv.x : ℝ)),
        Real.sqrt ((sv.x : ℝ) ^ 2 + (sv.y : ℝ) ^ 2 + (sv.z : ℝ) ^ 2) - 6371.0,
        geoposition_of g
          (degrees (Real.arcsin ((sv.z : ℝ) /
            Real.sqrt ((sv.x : ℝ) ^ 2 + (sv.y : ℝ) ^ 2 + (sv.z : ℝ) ^ 2))))
          (degrees (atan2 (sv.y : ℝ) (sv.x : ℝ)))⟩, ?_, rfl, ?_, ?_⟩
    · simp [get_now, hc, hspeed, hloc]
    · rw [hspeed]
    · rw [hloc]

/-- Witness for C5 (amended): the empty store, and a one-record store
with position (6371, 0, 0) and velocity (3, 4, 5). -/
theorem c5_now_composition_witness :
    (⟨[], []⟩ : Store).epochs = [] ∧
    (get_now (fun _ _ => .failure) (fun _ => 0) 0 ⟨[], []⟩ = .noData ∧
     (now_data (fun _ _ => .failure) (fun _ => 0) 0 ⟨[], []⟩).1 = 500) ∧
    print_closest_epoch (fun _ => 0) 0 ⟨[("a", ⟨"a", 6371, 0, 0, 3, 4, 5⟩)], ["a"]⟩
      = some ⟨"a", 6371, 0, 0, 3, 4, 5⟩ ∧
    hgetall [("a", (⟨"a", 6371, 0, 0, 3, 4, 5⟩ : StateVector))] "a"
      = some ⟨"a", 6371, 0, 0, 3, 4, 5⟩ ∧
    (((6371 : ℚ) : ℝ) ^ 2 + ((0 : ℚ) : ℝ) ^ 2 + ((0 : ℚ) : ℝ) ^ 2 ≠ 0) ∧
    (∃ r : NowRecord,
      get_now (fun _ _ => .failure) (fun _ => 0) 0
        ⟨[("a", ⟨"a", 6371, 0, 0, 3, 4, 5⟩)], ["a"]⟩ = .ok r ∧
      r.epoch = "a" ∧
      get_speed_epoch ⟨[("a", ⟨"a", 6371, 0, 0, 3, 4, 5⟩)], ["a"]⟩ "a"
        = some ("a", r.speed) ∧
      get_location_epoch (fun _ _ => .failure)
        ⟨[("a", ⟨"a", 6371, 0, 0, 3, 4, 5⟩)], ["a"]⟩ "a"
        = .ok ⟨"a", r.latitude, r.longitude, r.altitude, r.geoposition⟩) :=
  ⟨rfl,
   c5_now_composition.1 (fun _ _ => .failure) (fun _ => 0) 0 ⟨[], []⟩ rfl,
   by decide, by decide, by norm_num,
   c5_now_composition.2 (fun _ _ => .failure) (fun _ => 0) 0
     ⟨[("a", ⟨"a", 6371, 0, 0, 3, 4, 5⟩)], ["a"]⟩ ⟨"a", 6371, 0, 0, 3, 4, 5⟩
     (by decide) (by decide) (by norm_num)⟩

end Iss
